import Mathlib

/-!
Shallow embedding of the Flarion Universal Ping Tester CLI core
(`src/Classes/Server.py`, `src/Classes/OperatingSystem.py`) and proofs of the
spec claims about it.

Modelling conventions:
* A registry entry's JSON fields (`name`, `ip`, `country`) are `Option String`
  (absent field ↔ `none`); the `datacenter` mapping is the ordered list of its
  entries (Python dicts preserve insertion order; keys are opaque identifiers).
* The outcome of `open` + `json.load` on a path is abstracted as `FileOutcome`
  (file system and JSON decoder are libraries, not repository code): the file
  is missing (`FileNotFoundError`), its content is unparsable
  (`json.JSONDecodeError`), or it parses to a registry.
* External processes are modelled by environments carrying the behaviour of
  `subprocess.run` / `subprocess.check_output` as a function of the argv list
  and the timeout passed to it.
* Raised Python exceptions are modelled with `Except`; a Python function that
  catches every exception and returns a value is modelled as a total function.
* Python `str.lower` agrees with `String.toLower` on ASCII data, which is all
  the registry data and claims exercise.
-/

namespace Flarion

/-- One entry of the registry's `datacenter` mapping. -/
structure Entry where
  name : Option String
  ip : Option String
  country : Option String
deriving Repr, DecidableEq

/-- The parsed registry document: its `datacenter` mapping as the ordered list
of entries. Unknown top-level keys are ignored by the code, so they are not
modelled. -/
structure Registry where
  datacenter : List Entry
deriving Repr, DecidableEq

/-- `Server.__init__`: both attributes are `Optional[str]` defaulting to
`None`. -/
structure Server where
  name : Option String
  ip_address : Option String
deriving Repr, DecidableEq

/-- Outcome of `open(data_path)` followed by `json.load` on one path. -/
inductive FileOutcome where
  | missing
  | malformed
  | parsed (r : Registry)
deriving Repr, DecidableEq

/-- The two errors `load_data_from_json` can raise: `FileNotFoundError` and
`json.JSONDecodeError`. -/
inductive LoadError where
  | notFound
  | malformedData
deriving Repr, DecidableEq

/-- `Server.load_data_from_json`: opens the file and parses it, propagating
`FileNotFoundError` / `json.JSONDecodeError` to the caller; on success it
returns the fully parsed document (no partial results are representable). -/
def load_data_from_json : FileOutcome → Except LoadError Registry
  | .missing => .error .notFound
  | .malformed => .error .malformedData
  | .parsed r => .ok r

/-- The country key of one entry as formed inside `get_countries`:
`server_data.get("country", "Unknown") or "Unknown"` — an absent field gives
the default `"Unknown"`, and an empty string is falsy so `or` replaces it by
`"Unknown"` as well. -/
def countryBucket (e : Entry) : String :=
  match e.country with
  | none => "Unknown"
  | some c => if c = "" then "Unknown" else c

/-- Python `str` comparison on the underlying character lists: lexicographic
by Unicode code point, as used by `sorted` on a list of strings. -/
def lexLe : List Char → List Char → Bool
  | [], _ => true
  | _ :: _, [] => false
  | a :: as, b :: bs => if a < b then true else if b < a then false else lexLe as bs

/-- Python `s1 <= s2` on strings. -/
def strLe (a b : String) : Bool := lexLe a.toList b.toList

/-- `Server.get_countries`: builds the set of country buckets over all entries
and returns it sorted ascending; on any loading failure it prints the error and
returns `[]`. The Python set collapses duplicates (exact string equality) and
`sorted` orders by `strLe`, matched here by `dedup` + `insertionSort`. -/
def get_countries (f : FileOutcome) : List String :=
  match load_data_from_json f with
  | .error _ => []
  | .ok data =>
      List.insertionSort (fun a b => strLe a b = true)
        ((data.datacenter.map countryBucket).dedup)

/-- Python `str.lower`, modelled on the character list. Lean's `Char.toLower`
agrees with Python's per-character lowercasing on ASCII, which covers all the
registry data and queries in play. -/
def strLower (s : String) : String := ⟨s.data.map Char.toLower⟩

/-- The match test inside `get_servers_by_country`:
`server_data.get("country", "").lower() == country.lower()` — note the default
for an absent country field is `""` here, not `"Unknown"`. -/
def matchCountry (e : Entry) (country : String) : Bool :=
  strLower (e.country.getD "") == strLower country

/-- The `Server(...)` constructed for a matching entry:
`name=server_data.get("name", "Unknown"), ip_address=server_data.get("ip", "0.0.0.0")`. -/
def entryToServer (e : Entry) : Server :=
  { name := some (e.name.getD "Unknown"), ip_address := some (e.ip.getD "0.0.0.0") }

/-- `Server.get_servers_by_country`: one `Server` per matching entry, in
registry iteration order; on any loading failure it prints the error and
returns `[]`. -/
def get_servers_by_country (f : FileOutcome) (country : String) : List Server :=
  match load_data_from_json f with
  | .error _ => []
  | .ok data => (data.datacenter.filter (fun e => matchCountry e country)).map entryToServer

/-- Outcome of `subprocess.run(ping_command, capture_output=True, text=True,
timeout=30)`: the process completed with an exit code (and captured streams),
the 30-second bound expired (`subprocess.TimeoutExpired`), or the utility could
not be launched (`OSError`, e.g. `FileNotFoundError`). -/
inductive RunOutcome where
  | completed (returncode : Int) (stdout stderr : String)
  | timedOut
  | launchError (msg : String)
deriving Repr, DecidableEq

/-- Host environment seen by `Server.ping`: the value of `os.name` and the
behaviour of `subprocess.run` as a function of the argv list and the timeout
in seconds. -/
structure Env where
  osName : String
  run : List String → Nat → RunOutcome

/-- The `timeout=30` argument `ping` passes to `subprocess.run`. -/
def pingTimeoutSeconds : Nat := 30

/-- `Server._build_ping_command`: selects the argv by `os.name`
(`"posix"` → `-c`, `"nt"` → `-n`, both with count `6`) and raises
`NotImplementedError` (the spec's `UnsupportedPlatformError`) for any other
value. The address argument is the value of `self.ip_address`, which is a set
string whenever `ping` reaches this call. -/
def build_ping_command (osName : String) (ip : String) : Except String (List String) :=
  if osName = "posix" then .ok ["ping", "-c", "6", ip]
  else if osName = "nt" then .ok ["ping", "-n", "6", ip]
  else .error ("Unsupported operating system: " ++ osName)

/-- Result of `Server.ping`: the returned boolean, plus the argv passed to
`subprocess.run` when an external process was invoked (`none` when `ping`
returned before launching anything). -/
structure PingResult where
  ok : Bool
  invoked : Option (List String)
deriving Repr, DecidableEq

/-- `Server.ping`. Guard order as in the source: `if not self.ip_address`
(true for `None` and for `""`), then the sentinel test
`ip == "undefined" or ip == "0.0.0.0"`, then the `try` block. The `try`
wraps the `_build_ping_command()` call itself, so the `except Exception`
handler also catches its `NotImplementedError`: every failure path returns
`false`, and no exception escapes `ping`. Exit code `0` yields `True`;
a nonzero exit, `subprocess.TimeoutExpired`, or a launch error yields
`False` with a printed reason. -/
def ping (env : Env) (s : Server) : PingResult :=
  match s.ip_address with
  | none => ⟨false, none⟩
  | some ip =>
    if ip = "" then ⟨false, none⟩
    else if ip = "undefined" ∨ ip = "0.0.0.0" then ⟨false, none⟩
    else
      match build_ping_command env.osName ip with
      | .error _ => ⟨false, none⟩
      | .ok cmd =>
        match env.run cmd pingTimeoutSeconds with
        | .completed rc _ _ => ⟨rc == 0, some cmd⟩
        | .timedOut => ⟨false, some cmd⟩
        | .launchError _ => ⟨false, some cmd⟩

/-! ### OperatingSystem (`src/Classes/OperatingSystem.py`) -/

/-- Python `s.split(sep)` for a one-character separator, on the character
list: always yields at least one (possibly empty) group. -/
def splitOnChar (sep : Char) : List Char → List (List Char)
  | [] => [[]]
  | c :: rest =>
    let r := splitOnChar sep rest
    if c = sep then [] :: r
    else
      match r with
      | [] => [[c]]
      | g :: gs => (c :: g) :: gs

/-- Python `str.strip()` with no argument: removes surrounding whitespace. -/
def pythonStrip (cs : List Char) : List Char :=
  ((cs.dropWhile Char.isWhitespace).reverse.dropWhile Char.isWhitespace).reverse

/-- Python `int(s)` restricted to its success/failure behaviour on strings:
optional surrounding whitespace, an optional single sign, then at least one
digit; anything else raises `ValueError` (modelled as `none`). -/
def pythonInt? (cs : List Char) : Option Int :=
  let t := pythonStrip cs
  let signed : Int × List Char :=
    match t with
    | '-' :: rest => (-1, rest)
    | '+' :: rest => (1, rest)
    | _ => (1, t)
  if signed.2 ≠ [] ∧ signed.2.all Char.isDigit then
    some (signed.1 * (signed.2.foldl (fun a c => a * 10 + (c.toNat - 48)) 0 : Nat))
  else none

/-- `OperatingSystem._extract_build_number`: `int(version.split(".")[-1])`,
returning `0` when the conversion raises `ValueError` (`str.split` always
yields at least one element, so `IndexError` cannot occur). -/
def extract_build_number (version : String) : Int :=
  match pythonInt? ((splitOnChar '.' version.data).getLastD []) with
  | some n => n
  | none => 0

/-- `OperatingSystem._get_windows_info`: classifies the extracted build number
against `22000`. The enclosing `except Exception: return "Windows"` branch is
unreachable for string inputs because `_extract_build_number` already handles
its own conversion failures by returning `0`. -/
def get_windows_info (version : String) : String :=
  let build_number := extract_build_number version
  if build_number ≥ 22000 then "Windows 11 (Build " ++ toString build_number ++ ")"
  else "Windows 10 (Build " ++ toString build_number ++ ")"

/-- Outcome of `subprocess.check_output(argv, timeout=n)`: decoded output on
success, or one of the three caught exceptions — `CalledProcessError`
(nonzero exit), `FileNotFoundError` (missing utility), `TimeoutExpired`. -/
inductive HelperOutcome where
  | ok (output : String)
  | calledProcessError
  | fileNotFound
  | timedOut
deriving Repr, DecidableEq

/-- The `timeout=5` argument both OperatingSystem helpers pass to
`subprocess.check_output`. -/
def helperTimeoutSeconds : Nat := 5

/-- Host environment seen by `OperatingSystem`: the value of `os.name`, the
`release` field of `os.uname()` cached at construction time by
`_get_system_info` (POSIX), the `platform.version()` string (Windows), and the
behaviour of `subprocess.check_output` as a function of argv and timeout. -/
structure OSEnv where
  osName : String
  unameRelease : String
  platformVersion : String
  checkOutput : List String → Nat → HelperOutcome

/-- `OperatingSystem._get_linux_distro`: `lsb_release -i -s` with a 5-second
bound, `.decode().strip()` on success, literal `"Unknown Linux"` on any of the
three caught failures. -/
def get_linux_distro (env : OSEnv) : String :=
  match env.checkOutput ["lsb_release", "-i", "-s"] helperTimeoutSeconds with
  | .ok out => ⟨pythonStrip out.data⟩
  | .calledProcessError => "Unknown Linux"
  | .fileNotFound => "Unknown Linux"
  | .timedOut => "Unknown Linux"

/-- `OperatingSystem.get_kernel_version`: on POSIX, `uname -r` with a 5-second
bound, falling back to `getattr(self.info, "release", "Unknown")` — which for
POSIX is the `os.uname().release` string cached at construction; on Windows,
the build classification; otherwise the literal `"Unknown"`. -/
def get_kernel_version (env : OSEnv) : String :=
  if env.osName = "posix" then
    match env.checkOutput ["uname", "-r"] helperTimeoutSeconds with
    | .ok out => ⟨pythonStrip out.data⟩
    | .calledProcessError => env.unameRelease
    | .fileNotFound => env.unameRelease
    | .timedOut => env.unameRelease
  else if env.osName = "nt" then get_windows_info env.platformVersion
  else "Unknown"

/-! ### Concrete sample inputs used in witnesses and counterexamples -/

/-- A registry entry whose `country` field is absent. -/
def entryMissingCountry : Entry := ⟨some "A1", some "1.2.3.4", none⟩

/-- A registry with one entry lacking `country`, one with empty `country` (and
no `ip`), and one with `country` `"Germany"`. -/
def sampleRegistry : Registry :=
  ⟨[entryMissingCountry, ⟨some "B1", none, some ""⟩,
    ⟨some "C1", some "2.3.4.5", some "Germany"⟩]⟩

/-- A registry holding a single `"United States"` entry. -/
def usRegistry : Registry := ⟨[⟨some "US1", some "3.4.5.6", some "United States"⟩]⟩

/-- A registry holding a single `"France"` entry. -/
def franceRegistry : Registry := ⟨[⟨some "F1", some "4.5.6.7", some "France"⟩]⟩

/-- A registry with one entry lacking only the `country` field. -/
def registryMissingCountry : Registry := ⟨[entryMissingCountry]⟩

/-- An environment whose every `subprocess.run` completes with exit code 0. -/
def allOkEnv (osName : String) : Env := ⟨osName, fun _ _ => .completed 0 "" ""⟩

/-! ## Shared lemmas about the string comparator -/

theorem lexLe_total : ∀ as bs, lexLe as bs = true ∨ lexLe bs as = true := by
  intro as
  induction as with
  | nil => intro bs; left; rfl
  | cons a as ih =>
    intro bs
    cases bs with
    | nil => right; rfl
    | cons b bs =>
      rcases lt_trichotomy a b with h | h | h
      · left; simp [lexLe, h]
      · subst h
        rcases ih bs with h2 | h2
        · left; simp [lexLe, lt_irrefl, h2]
        · right; simp [lexLe, lt_irrefl, h2]
      · right; simp [lexLe, h]

theorem lexLe_trans : ∀ as bs cs, lexLe as bs = true → lexLe bs cs = true →
    lexLe as cs = true := by
  intro as
  induction as with
  | nil => intro bs cs _ _; rfl
  | cons a as ih =>
    intro bs cs h1 h2
    cases bs with
    | nil => simp [lexLe] at h1
    | cons b bs =>
      cases cs with
      | nil => simp [lexLe] at h2
      | cons c cs =>
        by_cases hab : a < b
        · by_cases hbc : b < c
          · simp [lexLe, lt_trans hab hbc]
          · by_cases hcb : c < b
            · simp [lexLe, hbc, hcb] at h2
            · have hbceq : b = c := le_antisymm (not_lt.mp hcb) (not_lt.mp hbc)
              subst hbceq
              simp [lexLe, hab]
        · by_cases hba : b < a
          · simp [lexLe, hab, hba] at h1
          · have habeq : a = b := le_antisymm (not_lt.mp hba) (not_lt.mp hab)
            subst habeq
            by_cases hbc : a < c
            · simp [lexLe, hbc]
            · by_cases hcb : c < a
              · simp [lexLe, hbc, hcb] at h2
              · have haceq : a = c := le_antisymm (not_lt.mp hcb) (not_lt.mp hbc)
                subst haceq
                simp [lexLe, lt_irrefl] at h1 h2 ⊢
                exact ih _ _ h1 h2

theorem lexLe_not_lex : ∀ as bs, lexLe as bs = true → ¬ List.Lex (· < ·) bs as := by
  intro as
  induction as with
  | nil =>
    intro bs _ hlt
    cases hlt
  | cons a as ih =>
    intro bs h hlt
    cases bs with
    | nil => simp [lexLe] at h
    | cons b bs =>
      cases hlt with
      | rel hba =>
        have hab : ¬ a < b := fun h2 => absurd hba (lt_asymm h2)
        simp [lexLe, hab, hba] at h
      | cons hlt =>
        simp [lexLe, lt_irrefl] at h
        exact ih bs h hlt

/-- The computable comparator implies Mathlib's linear order on `String`
(lexicographic on characters), connecting sortedness statements to `≤`. -/
theorem strLe_le {a b : String} (h : strLe a b = true) : a ≤ b := by
  rw [String.le_iff_toList_le]
  exact le_of_not_lt fun hlt => lexLe_not_lex a.toList b.toList h hlt

instance : IsTotal String (fun a b => strLe a b = true) :=
  ⟨fun a b => lexLe_total a.toList b.toList⟩

instance : IsTrans String (fun a b => strLe a b = true) :=
  ⟨fun a b c => lexLe_trans a.toList b.toList c.toList⟩

/-! ## Claims -/

/-- C5: for every address string, the constructed reachability command is
exactly `["ping", "-c", "6", address]` when `os.name` is `"posix"` (POSIX
family) and exactly `["ping", "-n", "6", address]` when it is `"nt"` (Windows
family). -/
theorem build_ping_command_exact (address : String) :
    build_ping_command "posix" address = .ok ["ping", "-c", "6", address] ∧
    build_ping_command "nt" address = .ok ["ping", "-n", "6", address] :=
  ⟨rfl, rfl⟩

/-- C7: on a missing path `load_data_from_json` raises `FileNotFoundError`
(`NotFoundError`), on unparsable content `json.JSONDecodeError`
(`MalformedDataError`), with no partial results (the `Except` carries either an
error or a whole registry); under the same failures `get_countries` and
`get_servers_by_country` raise nothing and return the empty sequence (the
failure is printed instead of propagating). -/
theorem load_failure_behaviour :
    load_data_from_json .missing = .error .notFound ∧
    load_data_from_json .malformed = .error .malformedData ∧
    get_countries .missing = [] ∧
    get_countries .malformed = [] ∧
    ∀ country, get_servers_by_country .missing country = [] ∧
      get_servers_by_country .malformed country = [] :=
  ⟨rfl, rfl, rfl, rfl, fun _ => ⟨rfl, rfl⟩⟩

/-- C2 (code bug evaluated at the failing input): an entry with an absent
`country` is classified under `"Unknown"` by `get_countries`, yet
`get_servers_by_country` — whose default for an absent `country` is `""`, not
`"Unknown"` — returns nothing for the query `"Unknown"`; the entry is only
matched by the empty-string query. -/
theorem unknown_bucket_unreachable :
    get_countries (.parsed registryMissingCountry) = ["Unknown"] ∧
    get_servers_by_country (.parsed registryMissingCountry) "Unknown" = [] ∧
    get_servers_by_country (.parsed registryMissingCountry) "" =
      [⟨some "A1", some "1.2.3.4"⟩] := by
  decide

/-- C3: for every registry (and every load outcome), `get_countries` returns a
sequence with no duplicates, sorted ascending with respect to the string
order, and all entries with a missing or empty `country` field collapse into
exactly one `"Unknown"` element. -/
theorem get_countries_sorted_nodup (f : FileOutcome) :
    (get_countries f).Nodup ∧
    List.Sorted (· ≤ ·) (get_countries f) ∧
    (∀ r, f = .parsed r →
      (∃ e ∈ r.datacenter, e.country = none ∨ e.country = some "") →
      List.count "Unknown" (get_countries f) = 1) := by
  refine ⟨?_, ?_, ?_⟩
  · cases f with
    | missing => exact List.nodup_nil
    | malformed => exact List.nodup_nil
    | parsed r =>
      exact (List.perm_insertionSort _ _).nodup_iff.mpr (List.nodup_dedup _)
  · cases f with
    | missing => exact List.sorted_nil
    | malformed => exact List.sorted_nil
    | parsed r =>
      exact (List.sorted_insertionSort (fun a b => strLe a b = true) _).imp
        fun h => strLe_le h
  · rintro r rfl ⟨e, he, hc⟩
    have hbucket : countryBucket e = "Unknown" := by
      rcases hc with h | h <;> simp [countryBucket, h]
    have hmem : "Unknown" ∈ get_countries (.parsed r) := by
      have hdedup : "Unknown" ∈ (r.datacenter.map countryBucket).dedup :=
        List.mem_dedup.mpr (List.mem_map.mpr ⟨e, he, hbucket⟩)
      exact ((List.perm_insertionSort _ _).mem_iff).mpr hdedup
    have hnodup : (get_countries (.parsed r)).Nodup :=
      (List.perm_insertionSort _ _).nodup_iff.mpr (List.nodup_dedup _)
    exact List.count_eq_one_of_mem hnodup hmem

/-- Witness for C3 at a registry holding an absent-country entry, an
empty-country entry and a `"Germany"` entry. -/
theorem get_countries_sorted_nodup_witness :
    List.count "Unknown" (get_countries (.parsed sampleRegistry)) = 1 :=
  (get_countries_sorted_nodup (.parsed sampleRegistry)).2.2 sampleRegistry rfl
    ⟨entryMissingCountry, by decide, Or.inl rfl⟩

/-- C1 counterexample: on a host whose `os.name` is `"java"` (neither POSIX
nor Windows), with a configured non-sentinel address, `_build_ping_command`
does raise the unsupported-platform error, but `ping` returns `false` without
launching anything instead of propagating it — the claim that `ping` raises it
to its caller is false. -/
theorem ping_swallows_unsupported_platform :
    build_ping_command "java" "10.0.0.1" =
      .error "Unsupported operating system: java" ∧
    ping (allOkEnv "java") ⟨some "S", some "10.0.0.1"⟩ = ⟨false, none⟩ :=
  ⟨rfl, rfl⟩

/-- C1 (amended): for every probe on a server with a configured non-sentinel
address, when `os.name` is neither `"posix"` nor `"nt"`,
`_build_ping_command` raises the unsupported-platform error but `ping`'s
catch-all handler swallows it and returns `false` without invoking any
external process; `ping` propagates no error at all. -/
theorem ping_unsupported_platform_returns_false (osName : String)
    (run : List String → Nat → RunOutcome) (name : Option String) (ip : String)
    (hpos : osName ≠ "posix") (hnt : osName ≠ "nt")
    (h0 : ip ≠ "") (h1 : ip ≠ "undefined") (h2 : ip ≠ "0.0.0.0") :
    build_ping_command osName ip =
      .error ("Unsupported operating system: " ++ osName) ∧
    ping ⟨osName, run⟩ ⟨name, some ip⟩ = ⟨false, none⟩ := by
  constructor
  · simp [build_ping_command, hpos, hnt]
  · simp [ping, build_ping_command, hpos, hnt, h0, h1, h2]

/-- Witness for the amended C1 on `os.name = "java"`. -/
theorem ping_unsupported_platform_returns_false_witness :
    build_ping_command "java" "1.2.3.4" =
      .error ("Unsupported operating system: " ++ "java") ∧
    ping ⟨"java", fun _ _ => .timedOut⟩ ⟨some "S", some "1.2.3.4"⟩ =
      ⟨false, none⟩ :=
  ping_unsupported_platform_returns_false "java" (fun _ _ => .timedOut)
    (some "S") "1.2.3.4" (by decide) (by decide) (by decide) (by decide)
    (by decide)

/-- C4: `ping` fails closed — it is a total function into `PingResult`, so no
error reaches the caller; an unset (`None` / empty) address or a sentinel
address returns `false` without invoking any external process; otherwise, on a
supported platform, it runs the built command with the 30-second bound and
returns `true` exactly when the exit code is 0, and `false` on nonzero exit,
timeout, or failure to launch. -/
theorem ping_fails_closed (osName : String)
    (run : List String → Nat → RunOutcome) (name : Option String) :
    ping ⟨osName, run⟩ ⟨name, none⟩ = ⟨false, none⟩ ∧
    ping ⟨osName, run⟩ ⟨name, some ""⟩ = ⟨false, none⟩ ∧
    ping ⟨osName, run⟩ ⟨name, some "undefined"⟩ = ⟨false, none⟩ ∧
    ping ⟨osName, run⟩ ⟨name, some "0.0.0.0"⟩ = ⟨false, none⟩ ∧
    pingTimeoutSeconds = 30 ∧
    (∀ ip, ip ≠ "" → ip ≠ "undefined" → ip ≠ "0.0.0.0" →
      osName = "posix" ∨ osName = "nt" →
      ∃ cmd, build_ping_command osName ip = .ok cmd ∧
        ping ⟨osName, run⟩ ⟨name, some ip⟩ =
          match run cmd pingTimeoutSeconds with
          | .completed rc _ _ => ⟨rc == 0, some cmd⟩
          | .timedOut => ⟨false, some cmd⟩
          | .launchError _ => ⟨false, some cmd⟩) := by
  refine ⟨rfl, by simp [ping], by simp [ping], by simp [ping], rfl, ?_⟩
  intro ip h0 h1 h2 hos
  have hcmd : ∃ cmd, build_ping_command osName ip = .ok cmd := by
    rcases hos with h | h <;> subst h
    · exact ⟨["ping", "-c", "6", ip], rfl⟩
    · exact ⟨["ping", "-n", "6", ip], rfl⟩
  obtain ⟨cmd, hcmd⟩ := hcmd
  refine ⟨cmd, hcmd, ?_⟩
  cases hrun : run cmd pingTimeoutSeconds <;>
    simp [ping, h0, h1, h2, hcmd, hrun]

/-- Witness for C4 at a POSIX host whose ping exits 0. -/
theorem ping_fails_closed_witness :
    ping ⟨"posix", fun _ _ => .completed 0 "out" ""⟩
        ⟨some "S", some "10.0.0.1"⟩ =
      ⟨true, some ["ping", "-c", "6", "10.0.0.1"]⟩ := by
  obtain ⟨cmd, hcmd, hping⟩ :=
    (ping_fails_closed "posix" (fun _ _ => .completed 0 "out" "")
        (some "S")).2.2.2.2.2 "10.0.0.1" (by decide) (by decide) (by decide)
      (Or.inl rfl)
  simp only [build_ping_command, if_pos rfl] at hcmd
  rw [hping]
  cases hcmd
  rfl

/-- C6: `get_servers_by_country` is case-insensitive in the query — two
queries with the same lowercasing give identical results — and matching is
whole-field, not substring: a `"United States"` entry is not returned for the
query `"United"`. -/
theorem servers_by_country_case_insensitive (f : FileOutcome) (q1 q2 : String)
    (h : strLower q1 = strLower q2) :
    get_servers_by_country f q1 = get_servers_by_country f q2 ∧
    get_servers_by_country (.parsed usRegistry) "United" = [] := by
  constructor
  · cases f with
    | missing => rfl
    | malformed => rfl
    | parsed r =>
      show (r.datacenter.filter fun e => matchCountry e q1).map entryToServer =
        (r.datacenter.filter fun e => matchCountry e q2).map entryToServer
      congr 1
      apply List.filter_congr
      intro e _
      simp [matchCountry, h]
  · decide

/-- Witness for C6: `"france"` and `"FRANCE"` give identical results. -/
theorem servers_by_country_case_insensitive_witness :
    get_servers_by_country (.parsed franceRegistry) "france" =
      get_servers_by_country (.parsed franceRegistry) "FRANCE" :=
  (servers_by_country_case_insensitive (.parsed franceRegistry) "france"
    "FRANCE" (by decide)).1

/-- C8 counterexample: on the version string `"not-a-number"` the numeric
extraction fails (`int` raises `ValueError`), yet the result is
`"Windows 10 (Build 0)"` — the older release label with the defaulted build
`0` — not a generic fallback label: `_extract_build_number` swallows its own
failure and returns `0`, making the `"Windows"` fallback unreachable for
string inputs. -/
theorem windows_info_no_generic_fallback :
    pythonInt? ((splitOnChar '.' "not-a-number".data).getLastD []) = none ∧
    get_windows_info "not-a-number" = "Windows 10 (Build 0)" ∧
    get_windows_info "not-a-number" ≠ "Windows" := by
  refine ⟨rfl, rfl, ?_⟩
  decide

/-- C8 (amended): the display string is derived by extracting the trailing
numeric component of the version string; a build `≥ 22000` classifies as
`"Windows 11 (Build N)"`, a lower build as `"Windows 10 (Build N)"`, and when
the numeric extraction fails the build number defaults to `0`, which
classifies as `"Windows 10 (Build 0)"` rather than a generic fallback label. -/
theorem windows_build_classification (version : String) :
    (extract_build_number version ≥ 22000 →
      get_windows_info version =
        "Windows 11 (Build " ++ toString (extract_build_number version) ++ ")") ∧
    (extract_build_number version < 22000 →
      get_windows_info version =
        "Windows 10 (Build " ++ toString (extract_build_number version) ++ ")") ∧
    (pythonInt? ((splitOnChar '.' version.data).getLastD []) = none →
      get_windows_info version = "Windows 10 (Build 0)") := by
  refine ⟨?_, ?_, ?_⟩
  · intro h
    simp [get_windows_info, h]
  · intro h
    simp [get_windows_info, not_le.mpr h]
  · intro h
    have hzero : extract_build_number version = 0 := by
      simp only [extract_build_number]
      rw [h]
    simp only [get_windows_info, hzero]
    decide

/-- Witness for C8 at the builds the spec names: `22631 ≥ 22000` is the newer
label, `19045` the older one. -/
theorem windows_build_classification_witness :
    get_windows_info "10.0.22631" = "Windows 11 (Build 22631)" ∧
    get_windows_info "10.0.19045" = "Windows 10 (Build 19045)" := by
  constructor
  · rw [(windows_build_classification "10.0.22631").1 (by decide)]
    decide
  · rw [(windows_build_classification "10.0.19045").2.1 (by decide)]
    decide

/-- C9: on POSIX every external helper call is best-effort, with the 5-second
bound passed to `subprocess.check_output` in both cases: a failing `uname -r`
(nonzero exit, missing utility, or timeout) falls back to the release string
cached at detection time, and a failing `lsb_release -i -s` yields the literal
`"Unknown Linux"`; both functions are total, so no helper failure propagates
past the component. -/
theorem os_helpers_best_effort (env : OSEnv) (hpos : env.osName = "posix") :
    helperTimeoutSeconds = 5 ∧
    (∀ o : HelperOutcome,
      env.checkOutput ["uname", "-r"] helperTimeoutSeconds = o →
      o = .calledProcessError ∨ o = .fileNotFound ∨ o = .timedOut →
      get_kernel_version env = env.unameRelease) ∧
    (∀ o : HelperOutcome,
      env.checkOutput ["lsb_release", "-i", "-s"] helperTimeoutSeconds = o →
      o = .calledProcessError ∨ o = .fileNotFound ∨ o = .timedOut →
      get_linux_distro env = "Unknown Linux") := by
  refine ⟨rfl, ?_, ?_⟩
  · rintro o ho (rfl | rfl | rfl) <;> simp [get_kernel_version, hpos, ho]
  · rintro o ho (rfl | rfl | rfl) <;> simp [get_linux_distro, ho]

/-- Witness for C9 on a POSIX host whose every helper call times out. -/
theorem os_helpers_best_effort_witness :
    get_kernel_version ⟨"posix", "6.1.0-cached", "", fun _ _ => .timedOut⟩ =
      "6.1.0-cached" ∧
    get_linux_distro ⟨"posix", "6.1.0-cached", "", fun _ _ => .timedOut⟩ =
      "Unknown Linux" := by
  have h := os_helpers_best_effort
    ⟨"posix", "6.1.0-cached", "", fun _ _ => .timedOut⟩ rfl
  exact ⟨h.2.1 .timedOut rfl (Or.inr (Or.inr rfl)),
    h.2.2 .timedOut rfl (Or.inr (Or.inr rfl))⟩

/-- C10: every `Server` returned by `get_servers_by_country` has both fields
populated (never `None`): a matching entry with a missing `name` yields
`"Unknown"` and a missing `ip` yields the sentinel `"0.0.0.0"`; such a server
is listed among the results, and `ping` on it returns `false` without invoking
any external process. -/
theorem servers_fields_populated (r : Registry) (country : String) :
    (∀ s ∈ get_servers_by_country (.parsed r) country,
      s.name ≠ none ∧ s.ip_address ≠ none) ∧
    (∀ e ∈ r.datacenter, matchCountry e country = true →
      entryToServer e ∈ get_servers_by_country (.parsed r) country ∧
      (e.name = none → (entryToServer e).name = some "Unknown") ∧
      (e.ip = none →
        (entryToServer e).ip_address = some "0.0.0.0" ∧
        ∀ env : Env, ping env (entryToServer e) = ⟨false, none⟩)) := by
  constructor
  · intro s hs
    have hs2 : s ∈ (r.datacenter.filter
        fun e => matchCountry e country).map entryToServer := hs
    obtain ⟨e, _, rfl⟩ := List.mem_map.mp hs2
    exact ⟨by simp [entryToServer], by simp [entryToServer]⟩
  · intro e he hmatch
    refine ⟨?_, ?_, ?_⟩
    · show entryToServer e ∈ (r.datacenter.filter
        fun e => matchCountry e country).map entryToServer
      exact List.mem_map_of_mem _ (List.mem_filter.mpr ⟨he, hmatch⟩)
    · intro hn
      simp [entryToServer, hn]
    · intro hi
      refine ⟨by simp [entryToServer, hi], fun env => ?_⟩
      simp [entryToServer, hi, ping]

/-- Witness for C10 at the sample registry's `⟨"B1", no ip, country ""⟩`
entry, matched by the empty-string query. -/
theorem servers_fields_populated_witness :
    entryToServer ⟨some "B1", none, some ""⟩ ∈
      get_servers_by_country (.parsed sampleRegistry) "" ∧
    (entryToServer ⟨some "B1", none, some ""⟩).ip_address = some "0.0.0.0" ∧
    ping (allOkEnv "posix") (entryToServer ⟨some "B1", none, some ""⟩) =
      ⟨false, none⟩ := by
  have h := (servers_fields_populated sampleRegistry "").2
    ⟨some "B1", none, some ""⟩ (by decide) (by decide)
  exact ⟨h.1, (h.2.2 rfl).1, (h.2.2 rfl).2 (allOkEnv "posix")⟩

end Flarion
